import Mathlib

/-!
Verification of the behavioural spec of `selena_from_nalog_gov.py`, the
balance-sheet downloader for bo.nalog.gov.ru.

The script drives a browser; all browser and filesystem interactions are
modelled by explicit environment values, while every piece of pure logic
(filename splitting, collision renaming, decimal counters, zip verification,
directory polling, batch aggregation, report statistics) is translated
directly from the source.  Filenames and strings are modelled as `List Char`
(`Name`); Python `Optional` becomes `Option`, exceptions become explicit
`Except`/environment constructors at the points where the source can raise.
-/

/-- Decidable equality for `Except`, used to evaluate the modelled
functions on concrete inputs. -/
instance {e a : Type} [DecidableEq e] [DecidableEq a] :
    DecidableEq (Except e a) := by
  intro x y
  cases x <;> cases y <;> first
    | (apply isFalse; intro h; exact Except.noConfusion h)
    | (rename_i u v
       exact if h : u = v then isTrue (by rw [h])
         else isFalse (by intro hc; cases hc; exact h rfl))

/-- Filenames, identifiers and messages: Python `str` modelled as a list of
characters. -/
abbrev Name : Type := List Char

/-- Helper turning a Lean string literal into the `Name` model. -/
def str (s : String) : Name := s.data

/-- Python `str.strip()` whitespace class (the ASCII part used by input
files): space, tab, newline, carriage return, vertical tab, form feed. -/
def isPySpace (c : Char) : Bool :=
  c = ' ' || c = '\t' || c = '\n' || c = '\r' || c = '\x0b' || c = '\x0c'

/-- Python `str.strip()`: drop leading and trailing whitespace. -/
def pyStrip (l : Name) : Name :=
  ((l.dropWhile isPySpace).reverse.dropWhile isPySpace).reverse

/-- Python `str.lower()` (ASCII case folding suffices for the `.zip`
comparison in `_verify_download`). -/
def toLowerName (l : Name) : Name := l.map Char.toLower

/-- Decimal digit characters, as produced by Python `str(int)` /
f-string formatting of the collision counter. -/
def decDigits : Nat → Nat → List Char
  | 0, _ => []
  | fuel + 1, n =>
    if n < 10 then [Nat.digitChar n]
    else decDigits fuel (n / 10) ++ [Nat.digitChar (n % 10)]

/-- Decimal rendering of a natural number (Python `f"{counter}"`). -/
def natToDigits (n : Nat) : List Char := decDigits (n + 1) n

/-- Value of a decimal digit string, used to show `natToDigits` is
injective (so distinct counters give distinct candidate filenames). -/
def digitsVal (l : List Char) : Nat :=
  l.foldl (fun a c => a * 10 + (c.toNat - 48)) 0

theorem digitsVal_append_last (xs : List Char) (c : Char) :
    digitsVal (xs ++ [c]) = digitsVal xs * 10 + (c.toNat - 48) := by
  simp [digitsVal, List.foldl_append]

theorem digitChar_toNat_of_lt_ten (n : Nat) (h : n < 10) :
    (Nat.digitChar n).toNat - 48 = n := by
  interval_cases n <;> rfl

theorem digitsVal_decDigits (fuel n : Nat) (h : n < fuel) :
    digitsVal (decDigits fuel n) = n := by
  induction fuel generalizing n with
  | zero => omega
  | succ fuel ih =>
    by_cases hn : n < 10
    · simp [decDigits, hn, digitsVal, digitChar_toNat_of_lt_ten n hn]
    · have hlt : n / 10 < fuel := by
        have h1 : n / 10 < n := Nat.div_lt_self (by omega) (by omega)
        omega
      simp only [decDigits, hn, if_false]
      rw [digitsVal_append_last, ih (n / 10) hlt,
        digitChar_toNat_of_lt_ten (n % 10) (Nat.mod_lt n (by omega))]
      omega

theorem digitsVal_natToDigits (n : Nat) : digitsVal (natToDigits n) = n :=
  digitsVal_decDigits (n + 1) n (Nat.lt_succ_self n)

theorem natToDigits_injective : Function.Injective natToDigits := by
  intro a b h
  have := digitsVal_natToDigits a
  rw [h, digitsVal_natToDigits] at this
  omega

/-- Last-dot split used to model `pathlib.PurePath.stem` / `.suffix`:
returns `some (before, dot-and-after)` for the last `.` in the name,
`none` when the name has no dot. -/
def splitLastDot : Name → Option (Name × Name)
  | [] => none
  | c :: rest =>
    match splitLastDot rest with
    | some (pre, suf) => some (c :: pre, suf)
    | none => if c = '.' then some ([], '.' :: rest) else none

/-- `pathlib` semantics of `source_path.stem` / `source_path.suffix`:
the suffix is nonempty only when the last dot is neither the first
character nor the final character of the name. -/
def stemSuffix (name : Name) : Name × Name :=
  match splitLastDot name with
  | some (pre, suf) =>
    if pre ≠ [] ∧ 1 < suf.length then (pre, suf) else (name, [])
  | none => (name, [])

/-- Candidate filename built by `_organize_download`'s collision loop:
Python `f"{base_name}_{counter}{extension}"`. -/
def mkName (base : Name) (counter : Nat) (ext : Name) : Name :=
  base ++ ('_' :: natToDigits counter) ++ ext

theorem mkName_injective_counter (base ext : Name) {i j : Nat}
    (h : mkName base i ext = mkName base j ext) : i = j := by
  unfold mkName at h
  rw [List.append_assoc, List.append_assoc] at h
  have h1 := List.append_cancel_left h
  have h2 : natToDigits i ++ ext = natToDigits j ++ ext := by
    simpa using h1
  exact natToDigits_injective (List.append_cancel_right h2)

/-- The `while target_path.exists()` loop of `_organize_download`:
starting from `counter`, try `base_counter ++ ext` names until one is not
present in the target directory.  `existing` is the set of names already in
`downloads/<inn>/<year>`; the fuel argument is purely a termination device
and is always chosen large enough to be unreachable (see
`organizeLoop_spec`). -/
def organizeLoop (existing : List Name) (base ext : Name) :
    Nat → Nat → Name
  | _, 0 => []
  | counter, fuel + 1 =>
    let cand := mkName base counter ext
    if cand ∈ existing then organizeLoop existing base ext (counter + 1) fuel
    else cand

/-- `_organize_download`, at the level of filenames: given the names already
present in the target directory `downloads/<inn>/<year>` and the downloaded
file's name, return the name the file is moved to.  Matches the source: the
unmodified filename when free, else `{stem}_{counter}{suffix}` for the first
free `counter ≥ 1`. -/
def organizeDownload (existing : List Name) (filename : Name) : Name :=
  if filename ∈ existing then
    let base := (stemSuffix filename).1
    let ext := (stemSuffix filename).2
    organizeLoop existing base ext 1 (existing.length + 1)
  else filename

theorem organizeLoop_spec (existing : List Name) (base ext : Name) :
    ∀ fuel counter j, counter ≤ j → j < counter + fuel →
      mkName base j ext ∉ existing →
      (∀ i, counter ≤ i → i < j → mkName base i ext ∈ existing) →
      organizeLoop existing base ext counter fuel = mkName base j ext := by
  intro fuel
  induction fuel with
  | zero => intro counter j h1 h2 _ _; omega
  | succ fuel ih =>
    intro counter j h1 h2 hfree hmin
    by_cases hc : mkName base counter ext ∈ existing
    · have hne : counter ≠ j := by
        intro heq; exact hfree (heq ▸ hc)
      simp only [organizeLoop, hc, if_true]
      exact ih (counter + 1) j (by omega) (by omega) hfree
        (fun i hi hij => hmin i (by omega) hij)
    · have heq : counter = j := by
        by_contra hne
        exact hc (hmin counter (le_refl _) (by omega))
      simp only [organizeLoop, hc, if_false]
      rw [heq]

/-- Pigeonhole argument: among the candidate names for counters
`1 .. existing.length + 1` at least one is not already present, so the
collision loop's fuel bound is never reached. -/
theorem exists_free_counter (existing : List Name) (base ext : Name) :
    ∃ j, 1 ≤ j ∧ j ≤ existing.length + 1 ∧ mkName base j ext ∉ existing := by
  by_contra hall
  push_neg at hall
  have hsub : (Finset.range (existing.length + 1)).image
      (fun k => mkName base (k + 1) ext) ⊆ existing.toFinset := by
    intro x hx
    rcases Finset.mem_image.mp hx with ⟨k, hk, rfl⟩
    have hk' := Finset.mem_range.mp hk
    exact List.mem_toFinset.mpr (hall (k + 1) (by omega) (by omega))
  have hcard : ((Finset.range (existing.length + 1)).image
      (fun k => mkName base (k + 1) ext)).card = existing.length + 1 := by
    rw [Finset.card_image_of_injective _ ?_, Finset.card_range]
    intro a b hab
    have := mkName_injective_counter base ext hab
    omega
  have hle := Finset.card_le_card hsub
  rw [hcard] at hle
  have := List.toFinset_card_le (l := existing)
  omega

/-- The name chosen by `_organize_download` never collides with a name
already present in the target directory. -/
theorem organizeDownload_not_mem (existing : List Name) (filename : Name) :
    organizeDownload existing filename ∉ existing := by
  by_cases hf : filename ∈ existing
  · obtain ⟨j0, hj01, hj0le, hj0free⟩ :=
      exists_free_counter existing (stemSuffix filename).1 (stemSuffix filename).2
    have hex : ∃ j, 1 ≤ j ∧
        mkName (stemSuffix filename).1 j (stemSuffix filename).2 ∉ existing :=
      ⟨j0, hj01, hj0free⟩
    classical
    let j := Nat.find hex
    have hj := Nat.find_spec hex
    have hjle : j ≤ j0 := Nat.find_min' hex ⟨hj01, hj0free⟩
    have hloop : organizeLoop existing (stemSuffix filename).1
        (stemSuffix filename).2 1 (existing.length + 1) =
        mkName (stemSuffix filename).1 j (stemSuffix filename).2 := by
      apply organizeLoop_spec existing _ _ _ 1 j hj.1 (by omega) hj.2
      intro i hi1 hij
      by_contra hmem
      exact absurd (Nat.find_min hex hij ⟨hi1, hmem⟩) (fun h => h)
    simp only [organizeDownload, hf, if_true]
    rw [hloop]
    exact hj.2
  · rw [organizeDownload, if_neg hf]
    exact hf

/-- The general characterization of `_organize_download`'s collision
handling: on a collision the result is `{stem}_{j}{suffix}` for the least
free counter `j ≥ 1`. -/
theorem organizeDownload_collision (existing : List Name) (filename : Name)
    (j : Nat) (hmem : filename ∈ existing) (hj1 : 1 ≤ j)
    (hfree : mkName (stemSuffix filename).1 j (stemSuffix filename).2 ∉ existing)
    (hmin : ∀ i, 1 ≤ i → i < j →
      mkName (stemSuffix filename).1 i (stemSuffix filename).2 ∈ existing) :
    organizeDownload existing filename =
      mkName (stemSuffix filename).1 j (stemSuffix filename).2 := by
  obtain ⟨j0, hj01, hj0le, hj0free⟩ :=
    exists_free_counter existing (stemSuffix filename).1 (stemSuffix filename).2
  have hjle : j ≤ j0 := by
    by_contra hlt
    exact hj0free (hmin j0 hj01 (by omega))
  simp only [organizeDownload, hmem, if_true]
  exact organizeLoop_spec existing _ _ _ 1 j hj1 (by omega) hfree hmin

/-- State of the two directories touched by `_organize_download`: the flat
download directory holding the fresh browser download, and the target
directory `downloads/<inn>/<year>`. -/
structure OrganizeState where
  sourceFiles : List Name
  targetFiles : List Name
deriving DecidableEq

/-- `_organize_download` as a state transition: the chosen target name is
added to the target directory and `source_path.rename(target_path)` removes
the source file from the download directory (a move, not a copy). -/
def organizeRun (st : OrganizeState) (filename : Name) :
    OrganizeState × Name :=
  let target := organizeDownload st.targetFiles filename
  (⟨st.sourceFiles.erase filename, target :: st.targetFiles⟩, target)

/-- Iterated relocation into one target directory (used for the uniqueness
invariant): each download's chosen name is added to the directory. -/
def organizeMany (existing : List Name) : List Name → List Name
  | [] => existing
  | f :: fs => organizeMany (organizeDownload existing f :: existing) fs

theorem organizeMany_nodup (files : List Name) :
    ∀ existing : List Name, existing.Nodup → (organizeMany existing files).Nodup := by
  induction files with
  | nil => intro existing h; exact h
  | cons f fs ih =>
    intro existing h
    exact ih _ (List.nodup_cons.mpr ⟨organizeDownload_not_mem existing f, h⟩)

/-- One entry of a zip archive: its stored name and whether its content
matches its stored checksum (what `zipfile.ZipFile.testzip` checks). -/
structure ZipEntry where
  name : Name
  crcOk : Bool
deriving DecidableEq

/-- Content of a candidate archive file: either not a zip at all (opening
raises `zipfile.BadZipFile`) or a zip with a list of entries. -/
inductive ZipContent where
  | badZip : ZipContent
  | entries : List ZipEntry → ZipContent
deriving DecidableEq

/-- `zipfile.ZipFile.testzip`: the name of the first entry whose content
fails its checksum, `None` when all entries are intact. -/
def testzip (es : List ZipEntry) : Option Name :=
  (es.find? (fun e => !e.crcOk)).map ZipEntry.name

/-- Python truthiness of an `Optional[str]`: `None` and the empty string
are falsy.  `_verify_download` applies this to `testzip`'s result
(`if bad_file:`). -/
def pyTruthy : Option Name → Bool
  | none => false
  | some s => !s.isEmpty

/-- A file on disk as observed by `_verify_download`: presence, size in
bytes, the final path component's name, and what opening it as a zip
yields. -/
structure FileObj where
  present : Bool
  size : Nat
  name : Name
  zip : ZipContent
deriving DecidableEq

/-- `_verify_download`, translated clause by clause: missing file fails;
zero size fails; a name whose lowered `pathlib` suffix is `.zip` is opened:
`BadZipFile` fails, a truthy `testzip` result fails, and the `.xlsx`
entry scan is logged only, never failing; every other file passes. -/
def verifyDownload (f : FileObj) : Bool :=
  if !f.present then false
  else if f.size = 0 then false
  else if toLowerName (stemSuffix f.name).2 = str ".zip" then
    match f.zip with
    | .badZip => false
    | .entries es => if pyTruthy (testzip es) then false else true
  else true

/-- Partial-download marker test from `_wait_for_download`:
`new_file.endswith('.crdownload')` or `new_file.endswith('.tmp')`. -/
def inProgressName (f : Name) : Bool :=
  (str ".crdownload").isSuffixOf f || (str ".tmp").isSuffixOf f

/-- The per-poll comparison in `_wait_for_download`:
`[f for f in current_files if f not in initial_files]`. -/
def newFilesOf (initial current : List Name) : List Name :=
  current.filter (fun f => decide (f ∉ initial))

/-- The polling loop of `_wait_for_download`.  `dirAt t` is the download
directory's file listing at the `t`-th poll; one unit of fuel corresponds
to one iteration of the 1-second polling loop.  A freshly appeared name is
returned once it carries no partial-download suffix; running out of fuel is
the 30-second timeout, which returns `none` rather than raising. -/
def waitForDownloadLoop (initial : List Name) (dirAt : Nat → List Name) :
    Nat → Nat → Option Name
  | _, 0 => none
  | t, fuel + 1 =>
    match newFilesOf initial (dirAt t) with
    | [] => waitForDownloadLoop initial dirAt (t + 1) fuel
    | newFile :: _ =>
      if inProgressName newFile then waitForDownloadLoop initial dirAt (t + 1) fuel
      else some newFile

/-- `_wait_for_download` with its default 30-second timeout. -/
def waitForDownload (initial : List Name) (dirAt : Nat → List Name) :
    Option Name :=
  waitForDownloadLoop initial dirAt 0 30

/-- The `DownloadResult` dataclass (the wall-clock `timestamp` field is
not modelled; nothing in the script reads it back). -/
structure DownloadResult where
  inn : Name
  year : Option Name
  success : Bool
  filePath : Option Name
  errorMessage : Option Name
deriving DecidableEq

/-- Outcome of one attempt of `search_organization`'s body, covering its
exit points: an entry with exactly matching INN text was found and clicked;
the results container loaded but no entry matched; the 20-second wait for
the container timed out (`TimeoutException`, caught); any other exception
(caught). -/
inductive SearchAttemptEnv where
  | found : SearchAttemptEnv
  | noMatch : SearchAttemptEnv
  | timedOut : SearchAttemptEnv
  | failure : Name → SearchAttemptEnv
deriving DecidableEq

/-- The body of `search_organization`: every failure mode is caught inside
the function and becomes a plain `False` return, so the body never lets an
exception escape (`Except.error` is never produced). -/
def searchAttempt : SearchAttemptEnv → Except Name Bool
  | .found => .ok true
  | .noMatch => .ok false
  | .timedOut => .ok false
  | .failure _ => .ok false

/-- The `tenacity.retry(stop=stop_after_attempt(3), ...)` wrapper: the
wrapped callable is re-invoked only when it raises; a normal return value
(`True` or `False` alike) is passed straight through.  The second component
counts the attempts actually performed. -/
def retryRun (f : Nat → Except Name Bool) (attempt : Nat) :
    Nat → Except Name Bool × Nat
  | 0 => (f attempt, 1)
  | remaining + 1 =>
    match f attempt with
    | .ok b => (.ok b, 1)
    | .error e =>
      if remaining = 0 then (.error e, 1)
      else
        let rest := retryRun f (attempt + 1) remaining
        (rest.1, rest.2 + 1)

/-- `search_organization` as called by the batch loop: the retry decorator
around the exception-swallowing body, with `stop_after_attempt(3)`.
`env t` describes what the page does on the `t`-th attempt. -/
def searchOrganization (env : Nat → SearchAttemptEnv) :
    Except Name Bool × Nat :=
  retryRun (fun t => searchAttempt (env t)) 0 3

/-- Environment of one download flow (`_handle_download_popup` and
`_download_specific_year` share this structure): either some wait/click in
the flow raised (caught by the flow's `except` clause), or
`_wait_for_download` found no new file, or a new file appeared — in which
case the environment carries its name, the names already in the target
directory, and the observed state of the relocated file (presence, size,
zip content). -/
inductive FlowEnv where
  | raised : Name → FlowEnv
  | noFile : FlowEnv
  | got : Name → List Name → Bool → Nat → ZipContent → FlowEnv
deriving DecidableEq

/-- Path string recorded in a successful result:
`str(organized_path)` = `<download-dir>/<inn>/<year-label>/<chosen name>`. -/
def pathOf (dir inn label fname : Name) : Name :=
  dir ++ '/' :: inn ++ '/' :: label ++ '/' :: fname

/-- `_handle_download_popup`: an exception yields a failure result carrying
the raised message and the *unsubstituted* year; a download timeout yields
`None`; a detected file is organized and verified, giving a success result
or a failure result with message "Download verification failed". -/
def handleDownloadPopup (dir inn : Name) (year : Option Name) :
    FlowEnv → Option DownloadResult
  | .raised msg => some ⟨inn, year, false, none, some msg⟩
  | .noFile => none
  | .got fname targetFiles present size zip =>
    let organized := organizeDownload targetFiles fname
    let label := year.getD (str "all")
    if verifyDownload ⟨present, size, organized, zip⟩ then
      some ⟨inn, some label, true, some (pathOf dir inn label organized), none⟩
    else
      some ⟨inn, some label, false, none,
        some (str "Download verification failed")⟩

/-- `_download_specific_year`: an exception yields a failure result; a
download timeout yields `None`; a detected file is organized and verified —
but only the verified case constructs a result, so a verification failure
falls through to the final `return None`. -/
def downloadSpecificYear (dir inn year : Name) :
    FlowEnv → Option DownloadResult
  | .raised msg => some ⟨inn, some year, false, none, some msg⟩
  | .noFile => none
  | .got fname targetFiles present size zip =>
    let organized := organizeDownload targetFiles fname
    if verifyDownload ⟨present, size, organized, zip⟩ then
      some ⟨inn, some year, true, some (pathOf dir inn year organized), none⟩
    else none

/-- Environment of one `download_reports` call: either the initial waits or
the download-button click raised (caught by its `except` clause before any
flow ran), or both flows ran with their own environments. -/
inductive ReportsEnv where
  | raised : Name → ReportsEnv
  | proceed : FlowEnv → FlowEnv → ReportsEnv
deriving DecidableEq

/-- `download_reports`: on an early exception, one failure result; otherwise
the popup flow's optional result, followed — only when no year was requested
— by the year-specific flow for the fixed year "2023". -/
def downloadReports (dir inn : Name) (year : Option Name) :
    ReportsEnv → List DownloadResult
  | .raised msg => [⟨inn, year, false, none, some msg⟩]
  | .proceed popupEnv yearEnv =>
    (handleDownloadPopup dir inn year popupEnv).toList ++
      (match year with
       | none => (downloadSpecificYear dir inn (str "2023") yearEnv).toList
       | some _ => [])

/-- Per-identifier environment of the batch loop: what each
`search_organization` attempt observes, and the download environment used
when the search succeeds. -/
structure InnEnv where
  search : Nat → SearchAttemptEnv
  dl : ReportsEnv

/-- One iteration of the `process_inns` loop: a successful search runs
`download_reports` (with no year); a `False` search records the single
"Organization not found" failure; an exception escaping the search (never
produced by the body, but caught by the loop's `except` clause) records a
failure with the exception's message. -/
def processStep (dir inn : Name) (e : InnEnv) : List DownloadResult :=
  match (searchOrganization e.search).1 with
  | .ok true => downloadReports dir inn none e.dl
  | .ok false => [⟨inn, none, false, none, some (str "Organization not found")⟩]
  | .error msg => [⟨inn, none, false, none, some msg⟩]

/-- The `for i, inn in enumerate(inns, 1)` loop of `process_inns`;
`env k` is the environment of the `k`-th identifier (0-based). -/
def processLoop (dir : Name) (env : Nat → InnEnv) :
    List Name → Nat → List DownloadResult
  | [], _ => []
  | inn :: rest, k => processStep dir inn (env k) ++ processLoop dir env rest (k + 1)

/-- The identifier list read from the input file:
`[line.strip() for line in f if line.strip()]`. -/
def innsOfLines (lines : List Name) : List Name :=
  (lines.filter (fun l => !(pyStrip l).isEmpty)).map pyStrip

/-- `process_inns`: a missing input file (`file = none`) logs an error and
returns the empty result list; otherwise the stripped non-blank lines are
processed in order. -/
def processInns (dir : Name) (file : Option (List Name))
    (env : Nat → InnEnv) : List DownloadResult :=
  match file with
  | none => []
  | some lines => processLoop dir env (innsOfLines lines) 0

/-- The aggregate numbers computed by `generate_report` (the surrounding
report text is pure formatting of these values). -/
structure ReportStats where
  totalInns : Nat
  successfulDownloads : Nat
  failedDownloads : Nat
  successRate : ℚ
deriving DecidableEq

/-- Python division, which raises `ZeroDivisionError` on a zero
denominator; modelled exactly over `ℚ`. -/
def pyDiv (a b : ℚ) : Except Unit ℚ :=
  if b = 0 then .error () else .ok (a / b)

/-- `generate_report`'s aggregates: distinct INNs via `len(set(...))`,
success/failure counts via list filters, and the success rate
`successful_downloads / len(results) * 100` — whose division is unguarded. -/
def generateReport (results : List DownloadResult) : Except Unit ReportStats :=
  let totalInns := (results.map DownloadResult.inn).dedup.length
  let successfulDownloads := (results.filter (fun r => r.success)).length
  let failedDownloads := (results.filter (fun r => !r.success)).length
  match pyDiv (successfulDownloads : ℚ) (results.length : ℚ) with
  | .error e => .error e
  | .ok q => .ok ⟨totalInns, successfulDownloads, failedDownloads, q * 100⟩

/-- The normal path of `main`: process the identifiers, then generate the
report; an exception from `generate_report` is caught by `main`'s
catch-all and turns into the fatal-error exit instead of a written
report. -/
def mainRun (dir : Name) (file : Option (List Name))
    (env : Nat → InnEnv) : Except Unit ReportStats :=
  generateReport (processInns dir file env)

/-- Helper lemma: the polling loop reports timeout (`none`) when no new
filename ever appears. -/
theorem waitForDownloadLoop_none (initial : List Name) (dirAt : Nat → List Name)
    (h : ∀ t, newFilesOf initial (dirAt t) = []) :
    ∀ fuel t, waitForDownloadLoop initial dirAt t fuel = none := by
  intro fuel
  induction fuel with
  | zero => intro t; rfl
  | succ fuel ih =>
    intro t
    simp only [waitForDownloadLoop, h t]
    exact ih (t + 1)

/-- Sufficient condition for one batch-loop iteration to record at least
one result: the search fails or errors (single not-found/failure result),
or the download phase raises early (single failure result), or the bulk
popup flow is not on its silent path (it then returns a result, success or
failure).  The silent path — no new file detected by the popup flow — is
the one that can record nothing. -/
def stepHasResult (e : InnEnv) : Bool :=
  match (searchOrganization e.search).1 with
  | .ok true =>
    match e.dl with
    | .raised _ => true
    | .proceed popupEnv _ =>
      match popupEnv with
      | .noFile => false
      | _ => true
  | _ => true

theorem processStep_length_pos (dir inn : Name) (e : InnEnv)
    (h : stepHasResult e = true) : 1 ≤ (processStep dir inn e).length := by
  unfold stepHasResult at h
  unfold processStep
  cases hs : (searchOrganization e.search).1 with
  | error msg => simp
  | ok b =>
    rw [hs] at h
    cases b
    · simp
    · cases hdl : e.dl with
      | raised msg => simp [downloadReports]
      | proceed popupEnv yearEnv =>
        rw [hdl] at h
        cases popupEnv with
        | raised msg => simp [downloadReports, handleDownloadPopup]
        | noFile => simp at h
        | got fname targetFiles present size zip =>
          simp only [downloadReports, handleDownloadPopup, List.length_append]
          split <;> simp

theorem processLoop_length (dir : Name) (env : Nat → InnEnv)
    (h : ∀ k, stepHasResult (env k) = true) :
    ∀ inns k, inns.length ≤ (processLoop dir env inns k).length := by
  intro inns
  induction inns with
  | nil => intro k; simp [processLoop]
  | cons inn rest ih =>
    intro k
    simp only [processLoop, List.length_append, List.length_cons]
    have h1 := processStep_length_pos dir inn (env k) (h k)
    have h2 := ih (k + 1)
    omega

/-- Claim C1, counterexample: a run over a single identifier whose search
succeeds, whose bulk popup flow detects no downloaded file, and whose
year-specific flow also detects none, records zero results — strictly fewer
than the one distinct identifier attempted.  The invariant
`len(results) >= number of distinct identifiers` fails on this run. -/
theorem c1_counterexample :
    (processInns (str "downloads") (some [str "7707083893"])
      (fun _ => ⟨fun _ => .found, .proceed .noFile .noFile⟩)).length <
    (innsOfLines [str "7707083893"]).dedup.length := by
  decide

/-- Claim C1, amended: an identifier whose search reports not-found yields
exactly one failure result with message "Organization not found" and no
download is attempted (the result is the same whatever the download
environment holds); and `len(results) >= number of distinct identifiers`
holds provided every loop iteration records at least one result — i.e.
when no successfully-searched identifier hits the silent path on which the
bulk flow detects no downloaded file (and the year flow yields nothing),
which is the path the counterexample exploits. -/
theorem c1_results_lower_bound (dir : Name) (lines : List Name)
    (env : Nat → InnEnv) (h : ∀ k, stepHasResult (env k) = true) :
    (innsOfLines lines).dedup.length ≤
      (processInns dir (some lines) env).length ∧
    (∀ inn e, (searchOrganization e.search).1 = .ok false →
      processStep dir inn e =
        [⟨inn, none, false, none, some (str "Organization not found")⟩]) := by
  constructor
  · have hd : (innsOfLines lines).dedup.length ≤ (innsOfLines lines).length :=
      List.Sublist.length_le (List.dedup_sublist _)
    have hl := processLoop_length dir env h (innsOfLines lines) 0
    simpa [processInns] using le_trans hd hl
  · intro inn e hs
    simp [processStep, hs]

/-- Witness for C1's amended theorem at a concrete run: one identifier,
search succeeds, bulk flow raises (recording one failure result). -/
theorem c1_witness :
    (innsOfLines [str "7707083893"]).dedup.length ≤
      (processInns (str "downloads") (some [str "7707083893"])
        (fun _ => ⟨fun _ => .found,
          .proceed (.raised (str "Timeout")) .noFile⟩)).length := by
  have h : stepHasResult
      ⟨fun _ => .found, .proceed (.raised (str "Timeout")) .noFile⟩ = true := by
    decide
  exact (c1_results_lower_bound (str "downloads") [str "7707083893"]
    (fun _ => ⟨fun _ => .found, .proceed (.raised (str "Timeout")) .noFile⟩)
    (fun _ => h)).1

/-- Claim C2: the retry wrapper on `search_organization` never re-attempts
anything.  Every failure mode (timeout waiting for the results container,
INN not found, any other error) is caught inside the function body and
returned as a plain `False`, so the tenacity wrapper — which only retries
when the callable raises — always sees a normal return: for every
environment the operation performs exactly one attempt and returns that
attempt's boolean.  In particular an attempt that times out yields `False`
to the caller after a single attempt, with no backoff and no re-attempt. -/
theorem c2_search_single_attempt :
    (∀ env, searchOrganization env = (searchAttempt (env 0), 1)) ∧
    searchOrganization (fun _ => .timedOut) = (.ok false, 1) := by
  constructor
  · intro env
    cases h : env 0 <;>
      simp [searchOrganization, retryRun, searchAttempt, h]
  · decide

/-- Claim C3, counterexample: in the year-specific flow, a download whose
relocated file fails verification (here: zero size) produces *no*
`DownloadResult` at all — the function falls through to `return None` —
rather than the failed result the claim requires. -/
theorem c3_counterexample :
    verifyDownload ⟨true, 0, organizeDownload [] (str "report.zip"),
      .entries []⟩ = false ∧
    downloadSpecificYear (str "downloads") (str "7707083893") (str "2023")
      (.got (str "report.zip") [] true 0 (.entries [])) = none := by
  decide

/-- Claim C3, amended: when post-download verification of the relocated
file fails, the bulk popup flow returns a failed `DownloadResult` with
error message "Download verification failed", while the year-specific flow
returns no result at all (`None`); neither flow raises — both return
normally. -/
theorem c3_verification_failure (dir inn : Name) (year : Option Name)
    (yearName fname : Name) (targetFiles : List Name)
    (present : Bool) (size : Nat) (zip : ZipContent)
    (h : verifyDownload
      ⟨present, size, organizeDownload targetFiles fname, zip⟩ = false) :
    handleDownloadPopup dir inn year
        (.got fname targetFiles present size zip) =
      some ⟨inn, some (year.getD (str "all")), false, none,
        some (str "Download verification failed")⟩ ∧
    downloadSpecificYear dir inn yearName
        (.got fname targetFiles present size zip) = none := by
  constructor
  · simp [handleDownloadPopup, h]
  · simp [downloadSpecificYear, h]

/-- Witness for C3's amended theorem: a zero-size relocated file. -/
theorem c3_witness :
    handleDownloadPopup (str "downloads") (str "7707083893") none
        (.got (str "report.zip") [] true 0 (.entries [])) =
      some ⟨str "7707083893", some (str "all"), false, none,
        some (str "Download verification failed")⟩ ∧
    downloadSpecificYear (str "downloads") (str "7707083893") (str "2023")
        (.got (str "report.zip") [] true 0 (.entries [])) = none :=
  c3_verification_failure (str "downloads") (str "7707083893") none
    (str "2023") (str "report.zip") [] true 0 (.entries []) (by decide)

/-- Claim C4: for the directory-polling detector, a directory state that
differs from the before-snapshot by exactly one added file whose name
carries no partial-download suffix makes the detector return that file's
name; and when no new filename ever appears within the polling window, it
returns `none` rather than raising. -/
theorem c4_wait_for_download (initial : List Name)
    (dirAt : Nat → List Name) (f : Name) :
    ((∀ t, newFilesOf initial (dirAt t) = [f]) → inProgressName f = false →
      waitForDownload initial dirAt = some f) ∧
    ((∀ t, newFilesOf initial (dirAt t) = []) →
      waitForDownload initial dirAt = none) := by
  constructor
  · intro h1 h2
    simp [waitForDownload, waitForDownloadLoop, h1 0, h2]
  · intro h
    exact waitForDownloadLoop_none initial dirAt h 30 0

/-- Witness for C4 at a concrete snapshot pair: one added complete file. -/
theorem c4_witness :
    waitForDownload [str "a.zip"] (fun _ => [str "a.zip", str "b.zip"]) =
      some (str "b.zip") :=
  (c4_wait_for_download [str "a.zip"] (fun _ => [str "a.zip", str "b.zip"])
    (str "b.zip")).1 (fun _ => by decide) (by decide)

/-- Claim C5, counterexample: a zip archive whose only (and hence first)
corrupted entry has an empty name passes verification, because the source
tests the name returned by `testzip` for truthiness (`if bad_file:`) and
the empty string is falsy.  So "a corrupted archive always fails
verification" is false as stated. -/
theorem c5_counterexample :
    testzip [⟨[], false⟩] = some [] ∧
    verifyDownload ⟨true, 10, str "report.zip",
      .entries [⟨[], false⟩]⟩ = true := by
  decide

/-- Claim C5, amended: a file of size zero always fails verification; a
well-formed zip archive (every entry's checksum intact) always passes,
whether or not any `.xlsx` entry is present — the spreadsheet scan is only
logged; and a zip archive with a corrupted entry fails provided the name
of the first corrupted entry is non-empty (an empty name defeats the
truthiness test, as the counterexample shows). -/
theorem c5_verify_download (f : FileObj) (es : List ZipEntry) (bad : Name) :
    (f.size = 0 → verifyDownload f = false) ∧
    (f.present = true → f.size ≠ 0 →
      toLowerName (stemSuffix f.name).2 = str ".zip" →
      f.zip = .entries es → (∀ e ∈ es, e.crcOk = true) →
      verifyDownload f = true) ∧
    (f.present = true → f.size ≠ 0 →
      toLowerName (stemSuffix f.name).2 = str ".zip" →
      f.zip = .entries es → testzip es = some bad → bad ≠ [] →
      verifyDownload f = false) := by
  refine ⟨?_, ?_, ?_⟩
  · intro h
    unfold verifyDownload
    cases f.present <;> simp [h]
  · intro hp hs hsuf hz hok
    have hfind : List.find? (fun e => !e.crcOk) es = none := by
      rw [List.find?_eq_none]
      intro e he
      simp [hok e he]
    have ht : testzip es = none := by
      simp [testzip, hfind]
    unfold verifyDownload
    rw [hp, hz]
    simp [hs, hsuf, ht, pyTruthy]
  · intro hp hs hsuf hz ht hb
    have htruthy : pyTruthy (testzip es) = true := by
      rw [ht]
      simp [pyTruthy, List.isEmpty_iff, hb]
    unfold verifyDownload
    rw [hp, hz]
    simp [hs, hsuf, htruthy]

/-- Witness for C5's amended theorem: a zero-size file fails, an intact
archive with a spreadsheet entry passes, and a corrupted archive whose bad
entry has a real name fails. -/
theorem c5_witness :
    verifyDownload ⟨true, 0, str "report.zip", .entries []⟩ = false ∧
    verifyDownload ⟨true, 10, str "report.zip",
      .entries [⟨str "b.xlsx", true⟩]⟩ = true ∧
    verifyDownload ⟨true, 10, str "report.zip",
      .entries [⟨str "b.xlsx", false⟩]⟩ = false :=
  ⟨(c5_verify_download ⟨true, 0, str "report.zip", .entries []⟩ [] []).1 rfl,
   (c5_verify_download ⟨true, 10, str "report.zip",
      .entries [⟨str "b.xlsx", true⟩]⟩ [⟨str "b.xlsx", true⟩] []).2.1
     rfl (by decide) (by decide) rfl (by decide),
   (c5_verify_download ⟨true, 10, str "report.zip",
      .entries [⟨str "b.xlsx", false⟩]⟩ [⟨str "b.xlsx", false⟩]
      (str "b.xlsx")).2.2
     rfl (by decide) (by decide) rfl (by decide) (by decide)⟩

/-- Claim C6: organizing a download named `report.zip` into a directory
already holding `report.zip` yields `report_1.zip`; in general, on a name
collision the chosen name is `{stem}_{j}{suffix}` for the least counter
`j ≥ 1` whose name is free; and the operation is a move — the source file
is removed from the download directory while the chosen name is added to
the target directory. -/
theorem c6_organize_collision :
    organizeDownload [str "report.zip"] (str "report.zip") =
      str "report_1.zip" ∧
    (∀ existing filename j, filename ∈ existing → 1 ≤ j →
      mkName (stemSuffix filename).1 j (stemSuffix filename).2 ∉ existing →
      (∀ i, 1 ≤ i → i < j →
        mkName (stemSuffix filename).1 i (stemSuffix filename).2 ∈ existing) →
      organizeDownload existing filename =
        mkName (stemSuffix filename).1 j (stemSuffix filename).2) ∧
    (∀ st fname, organizeRun st fname =
      (⟨st.sourceFiles.erase fname,
        organizeDownload st.targetFiles fname :: st.targetFiles⟩,
        organizeDownload st.targetFiles fname)) :=
  ⟨by decide,
   fun existing filename j hmem hj1 hfree hmin =>
     organizeDownload_collision existing filename j hmem hj1 hfree hmin,
   fun st fname => rfl⟩

/-- Witness for C6 at a concrete collision: `report.zip` and
`report_1.zip` both taken, so the counter reaches 2. -/
theorem c6_witness :
    organizeDownload [str "report.zip", str "report_1.zip"]
        (str "report.zip") =
      mkName (stemSuffix (str "report.zip")).1 2
        (stemSuffix (str "report.zip")).2 :=
  c6_organize_collision.2.1 [str "report.zip", str "report_1.zip"]
    (str "report.zip") 2 (by decide) (by decide) (by decide)
    (fun i h1 h2 => by
      have hi : i = 1 := by omega
      subst hi
      decide)

/-- Claim C7: the relocation step never overwrites — the chosen target
name is never one already present in the target directory, and therefore
any sequence of relocations into one directory keeps its filenames
unique. -/
theorem c7_no_overwrite :
    (∀ existing filename, organizeDownload existing filename ∉ existing) ∧
    (∀ existing files, existing.Nodup →
      (organizeMany existing files).Nodup) :=
  ⟨organizeDownload_not_mem,
   fun existing files h => organizeMany_nodup files existing h⟩

/-- Witness for C7: organizing the same source filename twice into an
initially empty directory keeps the directory duplicate-free. -/
theorem c7_witness :
    (organizeMany [] [str "report.zip", str "report.zip"]).Nodup :=
  c7_no_overwrite.2 [] [str "report.zip", str "report.zip"] (by decide)

/-- Claim C8: for every non-empty result list the reporter computes the
distinct-identifier count, the success count, the failure count, and the
success rate as successes divided by the number of *results* (not of
identifiers), as a percentage; for two results of which one succeeded the
rate is 50%. -/
theorem c8_report_aggregates (results : List DownloadResult)
    (h : results ≠ []) :
    generateReport results =
      .ok ⟨(results.map DownloadResult.inn).toFinset.card,
        results.countP (fun r => r.success),
        results.countP (fun r => !r.success),
        (results.countP (fun r => r.success) : ℚ) / results.length * 100⟩ ∧
    generateReport
        [⟨str "7707083893", some (str "all"), true, some (str "p"), none⟩,
         ⟨str "5003052454", none, false, none,
           some (str "Organization not found")⟩] =
      .ok ⟨2, 1, 1, 50⟩ := by
  constructor
  · have hlen : (results.length : ℚ) ≠ 0 := by
      simp [List.length_eq_zero, h]
    simp [generateReport, pyDiv, hlen, List.card_toFinset,
      List.countP_eq_length_filter]
  · simp only [generateReport, pyDiv]
    norm_num
    decide

/-- Witness for C8: the two-identifier scenario — one success, one
not-found — reports a 50% rate. -/
theorem c8_witness :
    generateReport
        [⟨str "7707083893", some (str "all"), true, some (str "p"), none⟩,
         ⟨str "5003052454", none, false, none,
           some (str "Organization not found")⟩] =
      .ok ⟨2, 1, 1, 50⟩ :=
  (c8_report_aggregates
    [⟨str "7707083893", some (str "all"), true, some (str "p"), none⟩,
     ⟨str "5003052454", none, false, none,
       some (str "Organization not found")⟩] (by decide)).2

/-- Claim C9: a missing identifiers file yields the empty result list
(no exception); when the file exists, the identifiers processed are
exactly the non-blank lines with surrounding whitespace stripped, in file
order — shown both as the general filter/map characterization and on a
concrete file with padded, blank and whitespace-only lines. -/
theorem c9_input_file_handling :
    (∀ dir env, processInns dir none env = []) ∧
    (∀ lines, innsOfLines lines =
      (lines.map pyStrip).filter (fun l => !l.isEmpty)) ∧
    innsOfLines [str "  7707083893 ", str "", str " \t ", str "5003052454"] =
      [str "7707083893", str "5003052454"] ∧
    (∀ dir lines env, processInns dir (some lines) env =
      processLoop dir env (innsOfLines lines) 0) := by
  refine ⟨fun dir env => rfl, ?_, by decide, fun dir lines env => rfl⟩
  intro lines
  induction lines with
  | nil => rfl
  | cons l ls ih =>
    by_cases hc : (pyStrip l).isEmpty
    · simp only [innsOfLines, List.filter_cons, List.map_cons, hc] at ih ⊢
      simpa using ih
    · simp only [innsOfLines, List.filter_cons, List.map_cons,
        Bool.not_eq_true] at ih ⊢
      simp only [hc]
      simpa using ih

/-- Claim C10: the reporter's success-rate division is unguarded, so the
empty result list makes `generate_report` raise `ZeroDivisionError`; the
batch runner returns exactly that empty list when the input file is
missing, and the normal main path then ends in the fatal-error exit
instead of a written report. -/
theorem c10_empty_results_fatal :
    generateReport [] = .error () ∧
    (∀ dir env, processInns dir none env = [] ∧
      mainRun dir none env = .error ()) := by
  refine ⟨by simp [generateReport, pyDiv], fun dir env => ⟨rfl, ?_⟩⟩
  simp [mainRun, processInns, generateReport, pyDiv]
